import Mathlib

/-!
Verification of the CustomGroqChat admission-controlled priority dispatcher.

The development shallowly embeds the three stateful modules of the
repository — the rate budget tracker (`RateLimitHandler`), the priority
dispatch queue (`QueueManager`) and the token estimator (`token_counter`) —
and proves the spec's testable properties about them.  The Python modules
`rate_limit_handler.py`, `queue_manager.py` and `token_counter.py` are not
shipped in this snapshot (only their unit tests are), so each definition is
modelled from the specification; wherever the unit tests pin a concrete
behaviour (exact denial strings, the per-message overhead 4, the per-list
overhead 3, the defaults 10 and 100, the empty-list early return, the strict
`> 60s` / `> 86400s` reset comparison) the model follows the tests, which are
part of the repository.

Conventions: machine time is modelled as a natural number of seconds;
Python's dynamically typed `token_count` argument is modelled by `PyValue`
so that passing a non-integer is expressible; raised exceptions are
modelled with `Except`.
-/

namespace CustomGroqChat

/-- Python value passed where an integer cost is expected; captures the
dynamic typing of `can_make_request` / `check_request` inputs. -/
inductive PyValue where
  | int (n : Int)
  | str (s : String)
deriving DecidableEq, Repr

/-- Errors raised by the rate-limit handler: `typeError` models Python's
`TypeError` on a non-integer cost, `rateLimit` models
`RateLimitExceededException` with its `limit_type`, `time_period`,
`current_value` and `limit_value` fields. -/
inductive RLError where
  | typeError
  | rateLimit (limit_type : String) (time_period : String)
      (current_value : Int) (limit_value : Int)
deriving DecidableEq, Repr

/-- Modelled from the spec: the per-model rate budget state of
`rate_limit_handler.RateLimitHandler` (module absent from the snapshot).
Four limits (each a positive integer or the sentinel `-1` = unlimited),
four counters, and one last-reset timestamp per window. -/
structure RateLimitHandler where
  req_per_min : Int
  req_per_day : Int
  tokens_per_min : Int
  tokens_per_day : Int
  req_minute_counter : Nat
  req_day_counter : Nat
  tokens_minute_counter : Nat
  tokens_day_counter : Nat
  last_minute_reset : Nat
  last_day_reset : Nat
deriving DecidableEq, Repr

namespace RateLimitHandler

/-- Modelled from the spec: `_reset_minute_counters` — the minute window
resets to zero exactly when more than 60 seconds have elapsed since the
last reset, and the reset advances the last-reset timestamp to `now`. -/
def reset_minute_counters (h : RateLimitHandler) (now : Nat) : RateLimitHandler :=
  if h.last_minute_reset + 60 < now then
    { h with req_minute_counter := 0, tokens_minute_counter := 0,
             last_minute_reset := now }
  else h

/-- Modelled from the spec: `_reset_day_counters` — the day window resets
to zero exactly when more than 86400 seconds have elapsed since the last
reset, advancing the timestamp to `now`. -/
def reset_day_counters (h : RateLimitHandler) (now : Nat) : RateLimitHandler :=
  if h.last_day_reset + 86400 < now then
    { h with req_day_counter := 0, tokens_day_counter := 0,
             last_day_reset := now }
  else h

/-- Modelled from the spec: the lazy roll-forward of both windows performed
at the start of every admission check. -/
def rollForward (h : RateLimitHandler) (now : Nat) : RateLimitHandler :=
  reset_day_counters (reset_minute_counters h now) now

/-- Modelled from the spec: a single limit is violated when it is not the
unlimited sentinel `-1` and the counter is already at/past the limit or
admitting the projected increment `delta` would push it past the limit. -/
def limitViolated (counter delta : Nat) (limit : Int) : Bool :=
  limit != -1 &&
    (decide (limit ≤ (counter : Int)) ||
     decide (limit < (counter : Int) + (delta : Int)))

/-- Denial reason string pinned by `rate_limit_handler_tests.py`. -/
def minuteRequestReason : String := "Rate limit exceeded - Minute Request Limit"

/-- Denial reason string pinned by `rate_limit_handler_tests.py`. -/
def minuteTokenReason : String := "Rate limit exceeded - Minute Token Limit"

/-- Denial reason string pinned by `rate_limit_handler_tests.py`. -/
def dayRequestReason : String := "Rate limit exceeded - Daily Request Limit"

/-- Denial reason string pinned by `rate_limit_handler_tests.py`. -/
def dayTokenReason : String := "Rate limit exceeded - Daily Token Limit"

/-- Modelled from the spec: the pure decision core shared by the advisory
and the strict check.  Evaluates the four limits independently in the order
minute-requests, minute-tokens, day-requests, day-tokens and collects every
violated limit's reason; the boolean is true iff no reason was collected. -/
def checkLimits (h : RateLimitHandler) (cost : Nat) : Bool × List String :=
  let reasons :=
    (if limitViolated h.req_minute_counter 1 h.req_per_min then
       [minuteRequestReason] else []) ++
    (if limitViolated h.tokens_minute_counter cost h.tokens_per_min then
       [minuteTokenReason] else []) ++
    (if limitViolated h.req_day_counter 1 h.req_per_day then
       [dayRequestReason] else []) ++
    (if limitViolated h.tokens_day_counter cost h.tokens_per_day then
       [dayTokenReason] else [])
  (reasons.isEmpty, reasons)

/-- Coerce a dynamic cost argument: accepted exactly when it is a
non-negative integer. -/
def costOfValue : PyValue → Option Nat
  | .int n => if 0 ≤ n then some n.toNat else none
  | .str _ => none

/-- Modelled from the spec: `can_make_request(token_count)` — raises a type
error unless the cost is a non-negative integer, lazily rolls both windows
forward, then evaluates all four limits without recording any consumption.
Returns the advisory verdict, the ordered reasons, and the (only
window-rolled) state. -/
def can_make_request (h : RateLimitHandler) (now : Nat) (cost : PyValue) :
    Except RLError ((Bool × List String) × RateLimitHandler) :=
  match costOfValue cost with
  | none => .error .typeError
  | some c =>
    let h' := rollForward h now
    .ok (checkLimits h' c, h')

/-- Modelled from the spec: the first violated limit, in the fixed order,
packaged as the structured rate-limit error carrying limit kind, window,
current counter value and configured limit. -/
def firstViolation (h : RateLimitHandler) (cost : Nat) : Option RLError :=
  if limitViolated h.req_minute_counter 1 h.req_per_min then
    some (.rateLimit "request" "minute" h.req_minute_counter h.req_per_min)
  else if limitViolated h.tokens_minute_counter cost h.tokens_per_min then
    some (.rateLimit "token" "minute" h.tokens_minute_counter h.tokens_per_min)
  else if limitViolated h.req_day_counter 1 h.req_per_day then
    some (.rateLimit "request" "day" h.req_day_counter h.req_per_day)
  else if limitViolated h.tokens_day_counter cost h.tokens_per_day then
    some (.rateLimit "token" "day" h.tokens_day_counter h.tokens_per_day)
  else none

/-- Modelled from the spec: `check_request(token_count, strictly)` — same
type validation and lazy roll-forward as the advisory check; when
`strictly` is set and the request is denied, raises the structured
rate-limit error; otherwise succeeds. -/
def check_request (h : RateLimitHandler) (now : Nat) (cost : PyValue)
    (strictly : Bool) : Except RLError RateLimitHandler :=
  match costOfValue cost with
  | none => .error .typeError
  | some c =>
    let h' := rollForward h now
    if strictly then
      match firstViolation h' c with
      | some e => .error e
      | none => .ok h'
    else .ok h'

/-- Modelled from the spec: `update_counters(token_count)` — unconditionally
increments both request counters by 1 and both token counters by the cost. -/
def update_counters (h : RateLimitHandler) (cost : Nat) : RateLimitHandler :=
  { h with
    req_minute_counter := h.req_minute_counter + 1,
    req_day_counter := h.req_day_counter + 1,
    tokens_minute_counter := h.tokens_minute_counter + cost,
    tokens_day_counter := h.tokens_day_counter + cost }

end RateLimitHandler

/-- A priority class of the dispatch queue. -/
inductive Priority where
  | high
  | normal
  | low
deriving DecidableEq, Repr

/-- The queue-manager-side view of a pending request: identifier, transport
coordinates, the token cost fixed at enqueue time, and the priority class. -/
structure QRequest where
  rid : String
  endpoint : String
  payload : String
  token_count : Nat
  priority : Priority
deriving DecidableEq, Repr

/-- Error raised by `enqueue_request`: models Python's `ValueError` on an
invalid priority string. -/
inductive QMError where
  | valueError
deriving DecidableEq, Repr

/-- Modelled from the spec: the mutable state of
`queue_manager.QueueManager` (module absent from the snapshot) — three
FIFO priority queues, the request index keyed by id, and the running flag. -/
structure QueueManager where
  high_priority_queue : List QRequest
  normal_priority_queue : List QRequest
  low_priority_queue : List QRequest
  request_map : List (String × QRequest)
  running : Bool
deriving DecidableEq, Repr

namespace QueueManager

/-- A queue manager with empty queues, an empty index and a stopped loop. -/
def empty : QueueManager :=
  { high_priority_queue := [], normal_priority_queue := [],
    low_priority_queue := [], request_map := [], running := false }

/-- Parse a priority string; only "high", "normal" and "low" are valid. -/
def parsePriority (s : String) : Option Priority :=
  if s = "high" then some .high
  else if s = "normal" then some .normal
  else if s = "low" then some .low
  else none

/-- The canonical string of a priority class. -/
def priorityName : Priority → String
  | .high => "high"
  | .normal => "normal"
  | .low => "low"

/-- The priority queue of the given class. -/
def queueOf (q : QueueManager) : Priority → List QRequest
  | .high => q.high_priority_queue
  | .normal => q.normal_priority_queue
  | .low => q.low_priority_queue

/-- Append a request to the tail of its priority queue. -/
def appendToQueue (q : QueueManager) (r : QRequest) : QueueManager :=
  match r.priority with
  | .high => { q with high_priority_queue := q.high_priority_queue ++ [r] }
  | .normal => { q with normal_priority_queue := q.normal_priority_queue ++ [r] }
  | .low => { q with low_priority_queue := q.low_priority_queue ++ [r] }

/-- Modelled from the spec: `enqueue_request(endpoint, payload, token_count,
priority)` — validates the priority string (value error otherwise), creates
the request, appends it to the tail of the matching queue, inserts it into
the request index, and returns its id.  The id is supplied by the caller
here, standing for the generated uuid. -/
def enqueue_request (q : QueueManager) (endpoint payload : String)
    (token_count : Nat) (priority : String) (rid : String) :
    Except QMError (String × QueueManager) :=
  match parsePriority priority with
  | none => .error .valueError
  | some p =>
    let r : QRequest :=
      { rid := rid, endpoint := endpoint, payload := payload,
        token_count := token_count, priority := p }
    let q' := appendToQueue q r
    .ok (rid, { q' with request_map := q'.request_map ++ [(rid, r)] })

/-- Look up a request id in the request index. -/
def lookupMap (m : List (String × QRequest)) (rid : String) : Option QRequest :=
  (m.find? (fun p => p.1 == rid)).map Prod.snd

/-- Remove a request id from the request index. -/
def removeMap (m : List (String × QRequest)) (rid : String) :
    List (String × QRequest) :=
  m.filter (fun p => p.1 != rid)

/-- Remove every request with the given id from a priority queue. -/
def removeFromQueue (l : List QRequest) (rid : String) : List QRequest :=
  l.filter (fun r => r.rid != rid)

/-- Modelled from the spec: `cancel_request(request_id)` — if the id is in
the index (hence the request is still queued: dispatch removes dispatched
requests from the index), remove it from its priority queue and from the
index and return true; otherwise return false and change nothing. -/
def cancel_request (q : QueueManager) (rid : String) : Bool × QueueManager :=
  match lookupMap q.request_map rid with
  | none => (false, q)
  | some r =>
    let q' :=
      match r.priority with
      | .high => { q with high_priority_queue :=
                    removeFromQueue q.high_priority_queue rid }
      | .normal => { q with normal_priority_queue :=
                    removeFromQueue q.normal_priority_queue rid }
      | .low => { q with low_priority_queue :=
                    removeFromQueue q.low_priority_queue rid }
    (true, { q' with request_map := removeMap q'.request_map rid })

/-- Modelled from the spec: `get_next_request()` — strict priority scan:
pop and return the head of the high queue if non-empty, else the head of
normal, else the head of low, else none. -/
def get_next_request (q : QueueManager) : Option QRequest × QueueManager :=
  match q.high_priority_queue with
  | r :: rest => (some r, { q with high_priority_queue := rest })
  | [] =>
    match q.normal_priority_queue with
    | r :: rest => (some r, { q with normal_priority_queue := rest })
    | [] =>
      match q.low_priority_queue with
      | r :: rest => (some r, { q with low_priority_queue := rest })
      | [] => (none, q)

/-- Total number of queued requests. -/
def totalLen (q : QueueManager) : Nat :=
  q.high_priority_queue.length + q.normal_priority_queue.length +
    q.low_priority_queue.length

/-- Repeatedly pop via `get_next_request`, collecting the dispatch order;
`fuel` bounds the recursion and any fuel at least `totalLen` drains fully. -/
def drain (fuel : Nat) (q : QueueManager) : List QRequest :=
  match fuel with
  | 0 => []
  | fuel' + 1 =>
    match get_next_request q with
    | (none, _) => []
    | (some r, q') => r :: drain fuel' q'

/-- Enqueue a list of already-formed requests in order, via
`enqueue_request` with each request's own priority string and id, ignoring
the (impossible for canonical names) error branch. -/
def enqueueAll (q : QueueManager) : List QRequest → QueueManager
  | [] => q
  | r :: rs =>
    match enqueue_request q r.endpoint r.payload r.token_count
        (priorityName r.priority) r.rid with
    | .ok (_, q') => enqueueAll q' rs
    | .error _ => enqueueAll q rs

end QueueManager

/-- Outcome of the transport call made for one dispatched request: either a
parsed response body or a raised transport exception with its message. -/
inductive TransportResult where
  | ok (body : String)
  | raised (msg : String)
deriving DecidableEq, Repr

/-- Error payload delivered to a callback when the transport call raised:
a dict carrying the failure message under the key `error`. -/
structure ErrorPayload where
  error : String
deriving DecidableEq, Repr

/-- Argument a request's callback is invoked with. -/
inductive CallbackArg where
  | response (body : String)
  | failure (e : ErrorPayload)
deriving DecidableEq, Repr

/-- Observable events of the dispatch path, in order of occurrence. -/
inductive QEvent where
  | countersUpdated (cost : Nat)
  | posted (endpoint payload : String)
  | callbackInvoked (arg : CallbackArg)
deriving DecidableEq, Repr

/-- Recognizes callback events. -/
def QEvent.isCallback : QEvent → Bool
  | .callbackInvoked _ => true
  | _ => false

/-- Recognizes counter-update events. -/
def QEvent.isCounters : QEvent → Bool
  | .countersUpdated _ => true
  | _ => false

/-- The callback argument the dispatcher delivers for a transport outcome. -/
def callbackFor : TransportResult → CallbackArg
  | .ok body => .response body
  | .raised msg => .failure { error := msg }

namespace QueueManager

/-- Modelled from the spec: `_process_request(request)` — records the
consumption once (the admission slot is budgeted, not the remote outcome),
posts to the transport client, and invokes the stored callback exactly once:
with the response on success, with the error payload when the call raised.
The raised exception is caught, never propagated (the function is total). -/
def processRequest (r : QRequest) (outcome : TransportResult) : List QEvent :=
  QEvent.countersUpdated r.token_count ::
  QEvent.posted r.endpoint r.payload ::
  [QEvent.callbackInvoked (callbackFor outcome)]

/-- Modelled from the spec: one iteration of the background admission loop —
take the next eligible request; if the budget admits it, remove it from its
queue and the index and process it (the transport outcome is a parameter);
if it is denied, leave the state unchanged (backpressure wait); if the
queues are empty, do nothing. -/
def processQueueStep (rl : RateLimitHandler) (now : Nat) (q : QueueManager)
    (outcome : TransportResult) : QueueManager × List QEvent :=
  match get_next_request q with
  | (none, _) => (q, [])
  | (some r, q') =>
    match RateLimitHandler.can_make_request rl now (.int r.token_count) with
    | .ok ((true, _), _) =>
      ({ q' with request_map := removeMap q'.request_map r.rid },
       processRequest r outcome)
    | _ => (q, [])

end QueueManager

/-- A function or tool call attached to a chat message: a name and a JSON
arguments string. -/
structure FunctionCall where
  name : String
  arguments : String
deriving DecidableEq, Repr

/-- A chat message: role, content, and an optional function call. -/
structure Message where
  role : String
  content : String
  function_call : Option FunctionCall
deriving DecidableEq, Repr

/-- A request body as the token counter sees it: an optional message list,
an optional flat prompt string, an optional declared maximum reply length,
and any unrecognized extra fields (ignored by the estimator). -/
structure GroqRequest where
  messages : Option (List Message)
  prompt : Option String
  max_tokens : Option Int
  extra : List (String × String)
deriving DecidableEq, Repr

namespace TokenCounter

/-- Per-message fixed formatting overhead, pinned by
`token_counter_tests.py` (4 tokens per message). -/
def perMessageOverhead : Nat := 4

/-- Per-list fixed formatting overhead, pinned by
`token_counter_tests.py` (3 tokens for a non-empty list). -/
def perListOverhead : Nat := 3

/-- Default cost of a request whose shape is unrecognized, pinned by
`token_counter_tests.py`. -/
def defaultTokenCost : Nat := 10

/-- Default completion estimate when no positive maximum is declared,
pinned by `token_counter_tests.py`. -/
def defaultCompletionTokens : Nat := 100

/-- Modelled from the spec: `count_tokens_in_message(message, encoding)` —
tokenized content length, plus the tokenized function-call name and
arguments when present, plus the per-message fixed overhead.  The
pluggable tokenizer is the parameter `tok`. -/
def count_tokens_in_message (tok : String → Nat) (m : Message) : Nat :=
  tok m.content +
    (match m.function_call with
     | some fc => tok fc.name + tok fc.arguments
     | none => 0) +
    perMessageOverhead

/-- Modelled from the spec: `count_tokens_in_messages(messages, model)` —
zero for the empty list (early return pinned by
`token_counter_tests.py`), otherwise the sum of the per-message costs plus
one fixed overhead for the list as a whole. -/
def count_tokens_in_messages (tok : String → Nat) : List Message → Nat
  | [] => 0
  | msgs => (msgs.map (count_tokens_in_message tok)).sum + perListOverhead

/-- Modelled from the spec: `count_tokens_in_prompt(prompt, model)` — the
tokenized length of the flat prompt string, with no list overhead. -/
def count_tokens_in_prompt (tok : String → Nat) (p : String) : Nat :=
  tok p

/-- Modelled from the spec: `count_tokens_in_request(request, model)` —
dispatch on the request shape: message list, else prompt string, else the
fixed conservative default. -/
def count_tokens_in_request (tok : String → Nat) (r : GroqRequest) : Nat :=
  match r.messages with
  | some msgs => count_tokens_in_messages tok msgs
  | none =>
    match r.prompt with
    | some p => count_tokens_in_prompt tok p
    | none => defaultTokenCost

/-- Modelled from the spec: `estimate_completion_tokens(request)` — the
declared `max_tokens` when present and strictly positive, the fixed
completion default otherwise (absent or non-positive). -/
def estimate_completion_tokens (r : GroqRequest) : Nat :=
  match r.max_tokens with
  | some m => if 0 < m then m.toNat else defaultCompletionTokens
  | none => defaultCompletionTokens

/-- Modelled from the spec: `count_request_and_completion_tokens` — the
prompt estimate, the completion estimate, and their sum. -/
def count_request_and_completion_tokens (tok : String → Nat)
    (r : GroqRequest) : Nat × Nat × Nat :=
  let p := count_tokens_in_request tok r
  let c := estimate_completion_tokens r
  (p, c, p + c)

/-- The cost formula the spec states for a structured message list (sum of
per-message costs plus one fixed overhead for the list as a whole), stated
for every list including the empty one; used to compare the spec's words
with the modelled code. -/
def specMessagesCost (tok : String → Nat) (msgs : List Message) : Nat :=
  (msgs.map (count_tokens_in_message tok)).sum + perListOverhead

end TokenCounter

/-- A concrete handler with the default test configuration and its minute
request counter already at the limit; used by witnesses. -/
def sampleHandler : RateLimitHandler :=
  { req_per_min := 60, req_per_day := 1000, tokens_per_min := 6000,
    tokens_per_day := 250000, req_minute_counter := 60,
    req_day_counter := 0, tokens_minute_counter := 0,
    tokens_day_counter := 0, last_minute_reset := 0, last_day_reset := 0 }

/-- A concrete unlimited-budget handler; used by witnesses. -/
def unlimitedHandler : RateLimitHandler :=
  { req_per_min := -1, req_per_day := -1, tokens_per_min := -1,
    tokens_per_day := -1, req_minute_counter := 10000,
    req_day_counter := 100000, tokens_minute_counter := 1000000,
    tokens_day_counter := 10000000, last_minute_reset := 0,
    last_day_reset := 0 }

/-- A concrete request; used by witnesses. -/
def sampleRequest : QRequest :=
  { rid := "req-1", endpoint := "/test", payload := "data",
    token_count := 10, priority := .high }

/-- A concrete normal-priority request; used by witnesses. -/
def sampleNormalRequest : QRequest :=
  { rid := "req-2", endpoint := "/test", payload := "data",
    token_count := 10, priority := .normal }

/-- A concrete low-priority request; used by witnesses. -/
def sampleLowRequest : QRequest :=
  { rid := "req-3", endpoint := "/test", payload := "data",
    token_count := 10, priority := .low }

/-!
Helper lemmas shared by the claim theorems.
-/

namespace RateLimitHandler

/-- Membership in an optional singleton reason list. -/
theorem mem_ite_singleton (c : Bool) (a s : String) :
    s ∈ (if c then [a] else []) ↔ (c = true ∧ s = a) := by
  cases c <;> simp

/-- Unfolding of a single limit check into its arithmetic condition. -/
theorem limitViolated_iff (c d : Nat) (L : Int) :
    limitViolated c d L = true ↔
      L ≠ -1 ∧ (L ≤ (c : Int) ∨ L < (c : Int) + (d : Int)) := by
  simp [limitViolated, Bool.and_eq_true, Bool.or_eq_true, bne_iff_ne,
    decide_eq_true_eq]

/-- Membership in the reasons list produced by the decision core. -/
theorem mem_checkLimits (h : RateLimitHandler) (cost : Nat) (s : String) :
    s ∈ (h.checkLimits cost).2 ↔
      ((limitViolated h.req_minute_counter 1 h.req_per_min = true ∧
          s = minuteRequestReason) ∨
       (limitViolated h.tokens_minute_counter cost h.tokens_per_min = true ∧
          s = minuteTokenReason) ∨
       (limitViolated h.req_day_counter 1 h.req_per_day = true ∧
          s = dayRequestReason) ∨
       (limitViolated h.tokens_day_counter cost h.tokens_per_day = true ∧
          s = dayTokenReason)) := by
  simp [checkLimits, List.mem_append, mem_ite_singleton]

/-- The advisory verdict is the emptiness of the reasons list. -/
theorem checkLimits_fst (h : RateLimitHandler) (c : Nat) :
    (h.checkLimits c).1 = ((h.checkLimits c).2).isEmpty := rfl

/-- The four denial reason strings are pairwise distinct. -/
theorem reasons_distinct :
    minuteRequestReason ≠ minuteTokenReason ∧
    minuteRequestReason ≠ dayRequestReason ∧
    minuteRequestReason ≠ dayTokenReason ∧
    minuteTokenReason ≠ dayRequestReason ∧
    minuteTokenReason ≠ dayTokenReason ∧
    dayRequestReason ≠ dayTokenReason := by
  refine ⟨?_, ?_, ?_, ?_, ?_, ?_⟩ <;> decide

end RateLimitHandler

/-- A list is non-empty iff `isEmpty` is false. -/
theorem isEmpty_false_iff (l : List String) : l.isEmpty = false ↔ l ≠ [] := by
  cases l <;> simp

namespace QueueManager

/-- Canonical priority names parse back to the priority. -/
theorem parsePriority_priorityName (p : Priority) :
    parsePriority (priorityName p) = some p := by
  cases p <;> decide

/-- Draining with sufficient fuel returns the three queues concatenated in
strict priority order. -/
theorem drain_eq (fuel : Nat) : ∀ q : QueueManager, totalLen q ≤ fuel →
    drain fuel q = q.high_priority_queue ++ q.normal_priority_queue ++
      q.low_priority_queue := by
  induction fuel with
  | zero =>
    intro q hq
    obtain ⟨qh, qn, ql, qm, qr⟩ := q
    simp only [totalLen, Nat.le_zero, Nat.add_eq_zero,
      List.length_eq_zero] at hq
    obtain ⟨⟨h1, h2⟩, h3⟩ := hq
    subst h1; subst h2; subst h3
    simp [drain]
  | succ n ih =>
    intro q hq
    obtain ⟨qh, qn, ql, qm, qr⟩ := q
    cases qh with
    | cons r t =>
      simp only [drain, get_next_request]
      rw [ih ⟨t, qn, ql, qm, qr⟩ (by simp [totalLen] at hq ⊢; omega)]
      simp
    | nil =>
      cases qn with
      | cons r t =>
        simp only [drain, get_next_request]
        rw [ih ⟨[], t, ql, qm, qr⟩ (by simp [totalLen] at hq ⊢; omega)]
        simp
      | nil =>
        cases ql with
        | cons r t =>
          simp only [drain, get_next_request]
          rw [ih ⟨[], [], t, qm, qr⟩ (by simp [totalLen] at hq ⊢; omega)]
          simp
        | nil => simp [drain, get_next_request]

/-- Enqueuing a list of requests appends each, in order, to the tail of
the queue of its priority class. -/
theorem enqueueAll_queues (rs : List QRequest) : ∀ q : QueueManager,
    (enqueueAll q rs).high_priority_queue =
      q.high_priority_queue ++ rs.filter (fun r => r.priority == .high) ∧
    (enqueueAll q rs).normal_priority_queue =
      q.normal_priority_queue ++ rs.filter (fun r => r.priority == .normal) ∧
    (enqueueAll q rs).low_priority_queue =
      q.low_priority_queue ++ rs.filter (fun r => r.priority == .low) := by
  induction rs with
  | nil => intro q; simp [enqueueAll]
  | cons r t ih =>
    intro q
    obtain ⟨rid, ep, pl, tc, pr⟩ := r
    have hp := parsePriority_priorityName pr
    simp only [enqueueAll, enqueue_request, hp]
    cases pr <;>
      · simp only [appendToQueue]
        refine ⟨?_, ?_, ?_⟩
        · rw [(ih _).1]; simp [List.filter_cons]
        · rw [(ih _).2.1]; simp [List.filter_cons]
        · rw [(ih _).2.2]; simp [List.filter_cons]

/-- Removing an id from the index makes lookups of that id fail. -/
theorem lookupMap_removeMap (m : List (String × QRequest)) (rid : String) :
    lookupMap (removeMap m rid) rid = none := by
  unfold lookupMap removeMap
  cases hf : (m.filter (fun p => p.1 != rid)).find? (fun p => p.1 == rid) with
  | none => simp
  | some x =>
    have hx := List.find?_some hf
    have hmem := List.mem_of_find?_eq_some hf
    have hpred := (List.mem_filter.mp hmem).2
    simp only [bne_iff_ne, decide_eq_true_eq] at hpred
    simp only [beq_iff_eq] at hx
    exact absurd hx hpred

/-- Every request left in a queue after removal has a different id. -/
theorem mem_removeFromQueue (l : List QRequest) (rid : String)
    (r' : QRequest) (h : r' ∈ removeFromQueue l rid) : r'.rid ≠ rid := by
  have hp := (List.mem_filter.mp h).2
  simpa [bne_iff_ne] using hp

end QueueManager

/-!
Claim theorems.
-/

/-- C1: for every non-negative integer cost, the admission check returns
its verdict and ordered reasons without mutating the budget state beyond
the documented lazy window roll; each of the four denial reasons appears
exactly when its limit is not the unlimited sentinel `-1` and the counter
is at the limit (boundary inclusive) or the projected consumption would
pass the limit; the verdict is denial exactly when some reason appears. -/
theorem can_make_request_admission (h : RateLimitHandler) (now : Nat)
    (cost : Int) (hc : 0 ≤ cost) :
    ∃ allowed reasons,
      h.can_make_request now (.int cost) =
        .ok ((allowed, reasons), h.rollForward now) ∧
      (RateLimitHandler.minuteRequestReason ∈ reasons ↔
        (h.rollForward now).req_per_min ≠ -1 ∧
        (h.rollForward now).req_per_min ≤
          ((h.rollForward now).req_minute_counter : Int)) ∧
      (RateLimitHandler.minuteTokenReason ∈ reasons ↔
        (h.rollForward now).tokens_per_min ≠ -1 ∧
        ((h.rollForward now).tokens_per_min ≤
           ((h.rollForward now).tokens_minute_counter : Int) ∨
         (h.rollForward now).tokens_per_min <
           ((h.rollForward now).tokens_minute_counter : Int) + cost)) ∧
      (RateLimitHandler.dayRequestReason ∈ reasons ↔
        (h.rollForward now).req_per_day ≠ -1 ∧
        (h.rollForward now).req_per_day ≤
          ((h.rollForward now).req_day_counter : Int)) ∧
      (RateLimitHandler.dayTokenReason ∈ reasons ↔
        (h.rollForward now).tokens_per_day ≠ -1 ∧
        ((h.rollForward now).tokens_per_day ≤
           ((h.rollForward now).tokens_day_counter : Int) ∨
         (h.rollForward now).tokens_per_day <
           ((h.rollForward now).tokens_day_counter : Int) + cost)) ∧
      (allowed = false ↔ reasons ≠ []) := by
  have hcv : RateLimitHandler.costOfValue (.int cost) = some cost.toNat := by
    simp [RateLimitHandler.costOfValue, hc]
  have hne := RateLimitHandler.reasons_distinct
  obtain ⟨d1, d2, d3, d4, d5, d6⟩ := hne
  have htn : ((cost.toNat : Int)) = cost := Int.toNat_of_nonneg hc
  refine ⟨(RateLimitHandler.checkLimits (h.rollForward now) cost.toNat).1,
    (RateLimitHandler.checkLimits (h.rollForward now) cost.toNat).2,
    ?_, ?_, ?_, ?_, ?_, ?_⟩
  · simp [RateLimitHandler.can_make_request, hcv]
  · rw [RateLimitHandler.mem_checkLimits]
    simp only [RateLimitHandler.limitViolated_iff, d1, d2, d3,
      and_false, false_or, or_false, and_true]
    omega
  · rw [RateLimitHandler.mem_checkLimits]
    simp only [RateLimitHandler.limitViolated_iff, d1.symm, d4, d5,
      and_false, false_or, or_false, and_true]
    rw [htn]
  · rw [RateLimitHandler.mem_checkLimits]
    simp only [RateLimitHandler.limitViolated_iff, d2.symm, d4.symm, d6,
      and_false, false_or, or_false, and_true]
    omega
  · rw [RateLimitHandler.mem_checkLimits]
    simp only [RateLimitHandler.limitViolated_iff, d3.symm, d5.symm, d6.symm,
      and_false, false_or, or_false, and_true]
    rw [htn]
  · rw [RateLimitHandler.checkLimits_fst]
    exact isEmpty_false_iff _

/-- Witness for C1: the sample handler sits at its minute request limit,
so the check at cost 100 satisfies the stated characterization. -/
theorem can_make_request_admission_witness :
    0 ≤ (100 : Int) ∧
    ∃ allowed reasons,
      sampleHandler.can_make_request 0 (.int 100) =
        .ok ((allowed, reasons), sampleHandler.rollForward 0) ∧
      (RateLimitHandler.minuteRequestReason ∈ reasons ↔
        (sampleHandler.rollForward 0).req_per_min ≠ -1 ∧
        (sampleHandler.rollForward 0).req_per_min ≤
          ((sampleHandler.rollForward 0).req_minute_counter : Int)) ∧
      (RateLimitHandler.minuteTokenReason ∈ reasons ↔
        (sampleHandler.rollForward 0).tokens_per_min ≠ -1 ∧
        ((sampleHandler.rollForward 0).tokens_per_min ≤
           ((sampleHandler.rollForward 0).tokens_minute_counter : Int) ∨
         (sampleHandler.rollForward 0).tokens_per_min <
           ((sampleHandler.rollForward 0).tokens_minute_counter : Int) + 100)) ∧
      (RateLimitHandler.dayRequestReason ∈ reasons ↔
        (sampleHandler.rollForward 0).req_per_day ≠ -1 ∧
        (sampleHandler.rollForward 0).req_per_day ≤
          ((sampleHandler.rollForward 0).req_day_counter : Int)) ∧
      (RateLimitHandler.dayTokenReason ∈ reasons ↔
        (sampleHandler.rollForward 0).tokens_per_day ≠ -1 ∧
        ((sampleHandler.rollForward 0).tokens_per_day ≤
           ((sampleHandler.rollForward 0).tokens_day_counter : Int) ∨
         (sampleHandler.rollForward 0).tokens_per_day <
           ((sampleHandler.rollForward 0).tokens_day_counter : Int) + 100)) ∧
      (allowed = false ↔ reasons ≠ []) :=
  ⟨by decide, can_make_request_admission sampleHandler 0 100 (by decide)⟩

/-- C5: a rate window resets its two counters to zero exactly when the
elapsed time since its last reset exceeds the window length (60 s for the
minute window, 86400 s for the day window); the reset advances the
last-reset timestamp to the observation time, and within the window the
counters and the timestamp are unchanged. -/
theorem rate_window_reset_spec (h : RateLimitHandler) (now : Nat) :
    (h.last_minute_reset + 60 < now →
       (h.reset_minute_counters now).req_minute_counter = 0 ∧
       (h.reset_minute_counters now).tokens_minute_counter = 0 ∧
       (h.reset_minute_counters now).last_minute_reset = now) ∧
    (¬ h.last_minute_reset + 60 < now →
       h.reset_minute_counters now = h) ∧
    (h.last_day_reset + 86400 < now →
       (h.reset_day_counters now).req_day_counter = 0 ∧
       (h.reset_day_counters now).tokens_day_counter = 0 ∧
       (h.reset_day_counters now).last_day_reset = now) ∧
    (¬ h.last_day_reset + 86400 < now →
       h.reset_day_counters now = h) := by
  refine ⟨fun hlt => ?_, fun hge => ?_, fun hlt => ?_, fun hge => ?_⟩ <;>
    simp [RateLimitHandler.reset_minute_counters,
      RateLimitHandler.reset_day_counters, *]

/-- Witness for C5 at a concrete handler: 61 seconds after the last minute
reset the counters are cleared and the timestamp advances. -/
theorem rate_window_reset_spec_witness :
    (({ req_per_min := 60, req_per_day := 1000, tokens_per_min := 6000,
        tokens_per_day := 250000, req_minute_counter := 30,
        req_day_counter := 5, tokens_minute_counter := 3000,
        tokens_day_counter := 50, last_minute_reset := 1000,
        last_day_reset := 1000 } : RateLimitHandler).reset_minute_counters
          1061).req_minute_counter = 0 := by
  have h := rate_window_reset_spec
    { req_per_min := 60, req_per_day := 1000, tokens_per_min := 6000,
      tokens_per_day := 250000, req_minute_counter := 30,
      req_day_counter := 5, tokens_minute_counter := 3000,
      tokens_day_counter := 50, last_minute_reset := 1000,
      last_day_reset := 1000 } 1061
  exact (h.1 (by decide)).1

/-- C6: `update_counters(c)` increments the minute and day request counters
by exactly 1 and the minute and day token counters by exactly `c`; no
operation other than a window reset decreases a counter — the advisory
check returns exactly the window-rolled state, and the window roll either
leaves each counter unchanged or zeroes it because its window elapsed. -/
theorem update_counters_spec (h : RateLimitHandler) (c : Nat) :
    ((h.update_counters c).req_minute_counter = h.req_minute_counter + 1 ∧
     (h.update_counters c).req_day_counter = h.req_day_counter + 1 ∧
     (h.update_counters c).tokens_minute_counter =
       h.tokens_minute_counter + c ∧
     (h.update_counters c).tokens_day_counter = h.tokens_day_counter + c) ∧
    (∀ now cost out, h.can_make_request now cost = .ok out →
       out.2 = h.rollForward now) ∧
    (∀ now,
      ((h.rollForward now).req_minute_counter = h.req_minute_counter ∨
         ((h.rollForward now).req_minute_counter = 0 ∧
          h.last_minute_reset + 60 < now)) ∧
      ((h.rollForward now).tokens_minute_counter = h.tokens_minute_counter ∨
         ((h.rollForward now).tokens_minute_counter = 0 ∧
          h.last_minute_reset + 60 < now)) ∧
      ((h.rollForward now).req_day_counter = h.req_day_counter ∨
         ((h.rollForward now).req_day_counter = 0 ∧
          h.last_day_reset + 86400 < now)) ∧
      ((h.rollForward now).tokens_day_counter = h.tokens_day_counter ∨
         ((h.rollForward now).tokens_day_counter = 0 ∧
          h.last_day_reset + 86400 < now))) := by
  refine ⟨⟨rfl, rfl, rfl, rfl⟩, ?_, ?_⟩
  · intro now cost out hout
    unfold RateLimitHandler.can_make_request at hout
    cases hcv : RateLimitHandler.costOfValue cost with
    | none => rw [hcv] at hout; exact absurd hout (by simp)
    | some cc =>
      rw [hcv] at hout
      simp only [Except.ok.injEq] at hout
      exact congrArg Prod.snd hout.symm
  · intro now
    unfold RateLimitHandler.rollForward RateLimitHandler.reset_minute_counters
      RateLimitHandler.reset_day_counters
    by_cases hm : h.last_minute_reset + 60 < now <;>
      by_cases hd : h.last_day_reset + 86400 < now <;>
      simp [hm, hd]

/-- Witness for C6 at a concrete handler and cost. -/
theorem update_counters_spec_witness :
    (({ req_per_min := 60, req_per_day := 1000, tokens_per_min := 6000,
        tokens_per_day := 250000, req_minute_counter := 2,
        req_day_counter := 3, tokens_minute_counter := 40,
        tokens_day_counter := 50, last_minute_reset := 0,
        last_day_reset := 0 } : RateLimitHandler).update_counters
          100).tokens_minute_counter = 140 := by
  have h := update_counters_spec
    { req_per_min := 60, req_per_day := 1000, tokens_per_min := 6000,
      tokens_per_day := 250000, req_minute_counter := 2,
      req_day_counter := 3, tokens_minute_counter := 40,
      tokens_day_counter := 50, last_minute_reset := 0,
      last_day_reset := 0 } 100
  exact h.1.2.2.1

/-- C2: `get_next_request` is a strict priority scan — it pops and returns
the head of the high queue when non-empty, else the head of normal, else
the head of low, else returns none; consequently, for any interleaving of
enqueues starting from the empty manager, the full dispatch order is the
high-priority requests in FIFO order, then the normal ones, then the low
ones. -/
theorem get_next_request_priority_scan :
    (∀ (q : QueueManager) (r : QRequest) (t : List QRequest),
       q.high_priority_queue = r :: t →
       q.get_next_request = (some r, { q with high_priority_queue := t })) ∧
    (∀ (q : QueueManager) (r : QRequest) (t : List QRequest),
       q.high_priority_queue = [] → q.normal_priority_queue = r :: t →
       q.get_next_request = (some r, { q with normal_priority_queue := t })) ∧
    (∀ (q : QueueManager) (r : QRequest) (t : List QRequest),
       q.high_priority_queue = [] → q.normal_priority_queue = [] →
       q.low_priority_queue = r :: t →
       q.get_next_request = (some r, { q with low_priority_queue := t })) ∧
    (∀ q : QueueManager,
       q.high_priority_queue = [] → q.normal_priority_queue = [] →
       q.low_priority_queue = [] → q.get_next_request = (none, q)) ∧
    (∀ rs : List QRequest,
       QueueManager.drain
           (QueueManager.totalLen (QueueManager.enqueueAll .empty rs))
           (QueueManager.enqueueAll .empty rs) =
         rs.filter (fun r => r.priority == .high) ++
         rs.filter (fun r => r.priority == .normal) ++
         rs.filter (fun r => r.priority == .low)) := by
  refine ⟨?_, ?_, ?_, ?_, ?_⟩
  · intro q r t h1
    simp [QueueManager.get_next_request, h1]
  · intro q r t h1 h2
    simp [QueueManager.get_next_request, h1, h2]
  · intro q r t h1 h2 h3
    simp [QueueManager.get_next_request, h1, h2, h3]
  · intro q h1 h2 h3
    simp [QueueManager.get_next_request, h1, h2, h3]
  · intro rs
    obtain ⟨e1, e2, e3⟩ := QueueManager.enqueueAll_queues rs .empty
    rw [QueueManager.drain_eq _ _ (le_refl _), e1, e2, e3]
    simp [QueueManager.empty]

/-- Witness for C2: enqueuing low, normal, high in that order dispatches
high, normal, low. -/
theorem get_next_request_priority_scan_witness :
    QueueManager.drain
        (QueueManager.totalLen (QueueManager.enqueueAll .empty
          [sampleLowRequest, sampleNormalRequest, sampleRequest]))
        (QueueManager.enqueueAll .empty
          [sampleLowRequest, sampleNormalRequest, sampleRequest]) =
      [sampleLowRequest, sampleNormalRequest, sampleRequest].filter
        (fun r => r.priority == .high) ++
      [sampleLowRequest, sampleNormalRequest, sampleRequest].filter
        (fun r => r.priority == .normal) ++
      [sampleLowRequest, sampleNormalRequest, sampleRequest].filter
        (fun r => r.priority == .low) :=
  get_next_request_priority_scan.2.2.2.2
    [sampleLowRequest, sampleNormalRequest, sampleRequest]

/-- C8: validation errors are raised synchronously and never coerced —
`enqueue_request` raises a value error for every priority string outside
high/normal/low, and both `can_make_request` and `check_request` raise a
type error for every cost that is not a non-negative integer: every
non-integer input and every negative integer. -/
theorem validation_errors_spec :
    (∀ (q : QueueManager) (e p rid s : String) (tc : Nat),
       s ≠ "high" → s ≠ "normal" → s ≠ "low" →
       q.enqueue_request e p tc s rid = .error .valueError) ∧
    (∀ (h : RateLimitHandler) (now : Nat) (s : String) (strict : Bool),
       h.can_make_request now (.str s) = .error .typeError ∧
       h.check_request now (.str s) strict = .error .typeError) ∧
    (∀ (h : RateLimitHandler) (now : Nat) (n : Int) (strict : Bool),
       n < 0 →
       h.can_make_request now (.int n) = .error .typeError ∧
       h.check_request now (.int n) strict = .error .typeError) := by
  refine ⟨?_, ?_, ?_⟩
  · intro q e p rid s tc h1 h2 h3
    simp [QueueManager.enqueue_request, QueueManager.parsePriority, h1, h2, h3]
  · intro h now s strict
    constructor <;>
      simp [RateLimitHandler.can_make_request, RateLimitHandler.check_request,
        RateLimitHandler.costOfValue]
  · intro h now n strict hn
    have hcv : RateLimitHandler.costOfValue (.int n) = none := by
      simp [RateLimitHandler.costOfValue]
      omega
    constructor <;>
      simp [RateLimitHandler.can_make_request, RateLimitHandler.check_request,
        hcv]

/-- Witness for C8 at concrete inputs: an invalid priority string and a
negative integer cost. -/
theorem validation_errors_spec_witness :
    QueueManager.empty.enqueue_request "/test" "data" 10 "urgent" "id-1" =
      .error .valueError ∧
    sampleHandler.can_make_request 0 (.str "100") = .error .typeError ∧
    sampleHandler.can_make_request 0 (.int (-5)) = .error .typeError :=
  ⟨validation_errors_spec.1 QueueManager.empty "/test" "data" "id-1" "urgent"
      10 (by decide) (by decide) (by decide),
   (validation_errors_spec.2.1 sampleHandler 0 "100" false).1,
   (validation_errors_spec.2.2 sampleHandler 0 (-5) false (by decide)).1⟩

/-- C7: cancelling an id present in the request index (hence still queued)
returns true and removes the request from both its priority queue and the
index; cancelling an id absent from the index (unknown, or already
dispatched and therefore deleted from the index) returns false and leaves
the whole state unchanged. -/
theorem cancel_request_spec (q : QueueManager) (rid : String) :
    (QueueManager.lookupMap q.request_map rid = none →
       q.cancel_request rid = (false, q)) ∧
    (∀ r, QueueManager.lookupMap q.request_map rid = some r →
       (q.cancel_request rid).1 = true ∧
       QueueManager.lookupMap (q.cancel_request rid).2.request_map rid =
         none ∧
       (∀ r', r' ∈ QueueManager.queueOf (q.cancel_request rid).2 r.priority →
          r'.rid ≠ rid) ∧
       (∀ p, p ≠ r.priority →
          QueueManager.queueOf (q.cancel_request rid).2 p =
            QueueManager.queueOf q p)) := by
  constructor
  · intro hnone
    simp [QueueManager.cancel_request, hnone]
  · intro r hsome
    cases hr : r.priority <;>
      refine ⟨?_, ?_, ?_, ?_⟩ <;>
        simp only [QueueManager.cancel_request, hsome, hr] <;>
        first
          | rfl
          | exact QueueManager.lookupMap_removeMap _ _
          | (intro r' hmem
             exact QueueManager.mem_removeFromQueue _ _ _
               (by simpa [QueueManager.queueOf, hr] using hmem))
          | (intro p hp
             cases p <;> simp_all [QueueManager.queueOf])

/-- Witness for C7: cancelling the one enqueued request of a concrete
manager empties its queue and index and returns true; then cancelling an
unknown id returns false and changes nothing. -/
theorem cancel_request_spec_witness :
    (QueueManager.lookupMap
        ({ QueueManager.empty with
            high_priority_queue := [sampleRequest],
            request_map := [("req-1", sampleRequest)] } :
          QueueManager).request_map "req-1" = some sampleRequest) ∧
    (({ QueueManager.empty with
          high_priority_queue := [sampleRequest],
          request_map := [("req-1", sampleRequest)] } :
        QueueManager).cancel_request "req-1").1 = true ∧
    QueueManager.empty.cancel_request "missing" =
      (false, QueueManager.empty) :=
  ⟨by decide,
   ((cancel_request_spec
      { QueueManager.empty with
          high_priority_queue := [sampleRequest],
          request_map := [("req-1", sampleRequest)] } "req-1").2
      sampleRequest (by decide)).1,
   (cancel_request_spec QueueManager.empty "missing").1 (by decide)⟩

/-- C3: for every processed request the stored callback is invoked exactly
once — with the transport response when the remote call succeeds, and with
an error payload carrying the failure message under the key `error` when
the transport call raised; `processRequest` is a total function, so the
exception never escapes the processing loop. -/
theorem callback_exactly_once (r : QRequest) (outcome : TransportResult) :
    (QueueManager.processRequest r outcome).filter QEvent.isCallback =
      [QEvent.callbackInvoked (callbackFor outcome)] ∧
    (∀ body, outcome = .ok body → callbackFor outcome = .response body) ∧
    (∀ msg, outcome = .raised msg →
       ∃ e : ErrorPayload,
         callbackFor outcome = .failure e ∧ e.error = msg) := by
  refine ⟨?_, ?_, ?_⟩
  · simp [QueueManager.processRequest, QEvent.isCallback]
  · intro body hb; subst hb; rfl
  · intro msg hm; subst hm; exact ⟨{ error := msg }, rfl, rfl⟩

/-- Witness for C3: a failing transport call on the sample request yields
exactly one callback, carrying the error payload. -/
theorem callback_exactly_once_witness :
    (QueueManager.processRequest sampleRequest
        (.raised "Test error")).filter QEvent.isCallback =
      [QEvent.callbackInvoked (.failure { error := "Test error" })] :=
  (callback_exactly_once sampleRequest (.raised "Test error")).1

/-- C4: when a loop iteration admits and dispatches a request, the counter
update is recorded exactly once with that request's token cost, whatever
the transport outcome; the update only ever happens on the admitted branch,
hence after the admission decision. -/
theorem counters_updated_once (rl : RateLimitHandler) (now : Nat)
    (q : QueueManager) (r : QRequest) (q' : QueueManager)
    (reasons : List String) (rl' : RateLimitHandler)
    (hnext : q.get_next_request = (some r, q'))
    (hgranted : rl.can_make_request now (.int (r.token_count : Int)) =
      .ok ((true, reasons), rl')) :
    ∀ outcome : TransportResult,
      ((QueueManager.processQueueStep rl now q outcome).2.filter
          QEvent.isCounters = [QEvent.countersUpdated r.token_count]) ∧
      ((QueueManager.processRequest r outcome).filter QEvent.isCounters =
        [QEvent.countersUpdated r.token_count]) := by
  intro outcome
  constructor
  · simp [QueueManager.processQueueStep, hnext, hgranted,
      QueueManager.processRequest, QEvent.isCounters]
  · simp [QueueManager.processRequest, QEvent.isCounters]

/-- Witness for C4: a concrete one-request queue under an unlimited budget
dispatches the sample request and records its cost exactly once. -/
theorem counters_updated_once_witness :
    ((QueueManager.processQueueStep unlimitedHandler 0
        ({ QueueManager.empty with
            high_priority_queue := [sampleRequest],
            request_map := [("req-1", sampleRequest)] } : QueueManager)
        (.ok "resp")).2.filter QEvent.isCounters =
      [QEvent.countersUpdated 10]) :=
  (counters_updated_once unlimitedHandler 0
    { QueueManager.empty with
        high_priority_queue := [sampleRequest],
        request_map := [("req-1", sampleRequest)] }
    sampleRequest
    { QueueManager.empty with
        high_priority_queue := [],
        request_map := [("req-1", sampleRequest)] }
    [] unlimitedHandler rfl rfl (.ok "resp")).1

/-- C9 counterexample: on the empty message list the estimator returns 0
(the early return its unit test pins), not the sum-plus-list-overhead
formula, which would give the overhead 3; so the claim's "including the
empty list" fails. -/
theorem messages_empty_list_counterexample :
    TokenCounter.count_tokens_in_messages String.length [] = 0 ∧
    TokenCounter.specMessagesCost String.length [] = 3 ∧
    TokenCounter.count_tokens_in_messages String.length [] ≠
      TokenCounter.specMessagesCost String.length [] :=
  ⟨rfl, rfl, by decide⟩

/-- C9 (amended): each message costs its tokenized content plus tokenized
function-call name and arguments plus the fixed per-message overhead; every
non-empty message list costs the sum of its message costs plus one fixed
overhead for the list as a whole, while the empty list costs 0; a flat
prompt string costs exactly its tokenized length with no list overhead. -/
theorem token_cost_formula (tok : String → Nat) :
    (∀ m : Message,
       TokenCounter.count_tokens_in_message tok m =
         tok m.content +
           (match m.function_call with
            | some fc => tok fc.name + tok fc.arguments
            | none => 0) +
           TokenCounter.perMessageOverhead) ∧
    (∀ msgs : List Message, msgs ≠ [] →
       TokenCounter.count_tokens_in_messages tok msgs =
         (msgs.map (TokenCounter.count_tokens_in_message tok)).sum +
           TokenCounter.perListOverhead) ∧
    TokenCounter.count_tokens_in_messages tok [] = 0 ∧
    (∀ p : String, TokenCounter.count_tokens_in_prompt tok p = tok p) := by
  refine ⟨fun m => rfl, ?_, rfl, fun p => rfl⟩
  intro msgs hne
  cases msgs with
  | nil => exact absurd rfl hne
  | cons m t => rfl

/-- Witness for C9 (amended) at a concrete singleton message list. -/
theorem token_cost_formula_witness :
    TokenCounter.count_tokens_in_messages String.length
        [{ role := "user", content := "hi", function_call := none }] =
      ([({ role := "user", content := "hi", function_call := none } :
          Message)].map
        (TokenCounter.count_tokens_in_message String.length)).sum +
        TokenCounter.perListOverhead :=
  (token_cost_formula String.length).2.1
    [{ role := "user", content := "hi", function_call := none }]
    (by decide)

/-- C10: a request whose shape is neither a message list nor a prompt
string costs the fixed default 10 regardless of its other contents; the
completion estimate is the declared `max_tokens` when present and strictly
positive and the fixed default 100 when absent or non-positive, and it is
always strictly positive. -/
theorem estimator_defaults :
    (∀ (tok : String → Nat) (mt : Option Int)
       (ex : List (String × String)),
       TokenCounter.count_tokens_in_request tok
         { messages := none, prompt := none, max_tokens := mt,
           extra := ex } = 10) ∧
    (∀ (r : GroqRequest) (m : Int), r.max_tokens = some m → 0 < m →
       TokenCounter.estimate_completion_tokens r = m.toNat) ∧
    (∀ (r : GroqRequest) (m : Int), r.max_tokens = some m → m ≤ 0 →
       TokenCounter.estimate_completion_tokens r = 100) ∧
    (∀ r : GroqRequest, r.max_tokens = none →
       TokenCounter.estimate_completion_tokens r = 100) ∧
    (∀ r : GroqRequest, 0 < TokenCounter.estimate_completion_tokens r) := by
  refine ⟨fun tok mt ex => rfl, ?_, ?_, ?_, ?_⟩
  · intro r m hm hpos
    simp [TokenCounter.estimate_completion_tokens, hm, hpos]
  · intro r m hm hnp
    simp only [TokenCounter.estimate_completion_tokens, hm]
    rw [if_neg (by omega)]
    rfl
  · intro r hm
    simp [TokenCounter.estimate_completion_tokens, hm,
      TokenCounter.defaultCompletionTokens]
  · intro r
    unfold TokenCounter.estimate_completion_tokens
    cases hm : r.max_tokens with
    | none => decide
    | some m =>
      show 0 < if 0 < m then m.toNat else TokenCounter.defaultCompletionTokens
      by_cases hpos : 0 < m
      · rw [if_pos hpos]; omega
      · rw [if_neg hpos]; decide

/-- Witness for C10 at the unit tests' concrete requests. -/
theorem estimator_defaults_witness :
    TokenCounter.count_tokens_in_request String.length
      { messages := none, prompt := none, max_tokens := some 100,
        extra := [("unknown_field", "This is not a standard field")] } =
      10 ∧
    TokenCounter.estimate_completion_tokens
      { messages := none, prompt := none, max_tokens := some 200,
        extra := [] } = (200 : Int).toNat ∧
    TokenCounter.estimate_completion_tokens
      { messages := none, prompt := none, max_tokens := some (-50),
        extra := [] } = 100 :=
  ⟨estimator_defaults.1 String.length (some 100)
      [("unknown_field", "This is not a standard field")],
   estimator_defaults.2.1
      { messages := none, prompt := none, max_tokens := some 200,
        extra := [] } 200 rfl (by decide),
   estimator_defaults.2.2.1
      { messages := none, prompt := none, max_tokens := some (-50),
        extra := [] } (-50) rfl (by decide)⟩

end CustomGroqChat
